import Mathlib

/-!
Verification of the livo-backend role-hierarchy authorization model and
order-fulfillment state machine, as a shallow embedding of the Go source.

Conventions of the embedding:
* machine integers (`uint`, `int`) become `Nat`/`Int`;
* `*T` pointer fields used as optional values become `Option T`;
* timestamps become abstract `Nat` tick values;
* a Gin handler that answers an error response becomes a function into
  `Except ApiError _`; a successful handler returns the committed state, and
  a transaction rollback is the `Except.error` branch (no state returned).
-/

deriving instance DecidableEq for Except

namespace Livo

/-- Outcome classes of the HTTP error responses used by the controllers
(`http.StatusNotFound`, `http.StatusBadRequest`, `http.StatusForbidden`,
`http.StatusConflict`, `http.StatusUnauthorized`, internal errors). -/
inductive ApiError where
  | notFound
  | badRequest
  | forbidden
  | conflict
  | unauthorized
  | internalError
deriving Repr, DecidableEq

/-! ## Role hierarchy (models/role.go, models `User` methods) -/

/-- Table returned by `models.GetRoleHierarchy`. -/
def roleHierarchy : List (String × Nat) :=
  [("superadmin", 9), ("coordinator", 4), ("admin", 3), ("admin-retur", 3),
   ("finance", 3), ("picker", 2), ("outbound", 2), ("qc-ribbon", 2),
   ("qc-online", 2), ("mb-ribbon", 2), ("mb-online", 2), ("packing", 2),
   ("guest", 1)]

/-- Map lookup `level, exists := hierarchy[name]`; `none` models `exists = false`. -/
def hierarchyLevel (name : String) : Option Nat :=
  (roleHierarchy.find? (fun p => p.1 == name)).map (fun p => p.2)

/-- Fold computing `currentMaxLevel` over a list of role names, starting at 0 and
keeping a level only when the name is in the hierarchy and the level is larger.
This is the loop of `User.GetHighestRoleLevel` and the identical loops in
`UserManagerController.AssignRole`, `RemoveRole`, `CreateUser`, `DeleteUser`,
`UpdateUserPassword`. -/
def effectiveRank (roles : List String) : Nat :=
  roles.foldl
    (fun maxLevel name =>
      match hierarchyLevel name with
      | some level => if maxLevel < level then level else maxLevel
      | none => maxLevel)
    0

/-- Predicate of `User.CanManageUser`: `currentLevel > targetLevel`. -/
def canManageUser (actingRoles targetRoles : List String) : Bool :=
  decide (effectiveRank targetRoles < effectiveRank actingRoles)

/-- Rank gate of `UserManagerController.DeleteUser`: the request is rejected with
Forbidden when `currentMaxLevel <= targetMaxLevel`. -/
def deleteUserRankAllows (currentRoles targetRoles : List String) : Bool :=
  if effectiveRank currentRoles ≤ effectiveRank targetRoles then false else true

/-- Rank gate of `UserManagerController.UpdateUserPassword`: the request is
rejected with Forbidden when `currentMaxLevel < targetMaxLevel`. -/
def updateUserPasswordAllows (currentRoles targetRoles : List String) : Bool :=
  if effectiveRank currentRoles < effectiveRank targetRoles then false else true

/-- Rank gate of `UserManagerController.AssignRole`: rejected with Forbidden when
`!exists || currentMaxLevel < targetRoleLevel`. -/
def assignRoleAllowed (currentRoles : List String) (targetRoleName : String) : Bool :=
  match hierarchyLevel targetRoleName with
  | none => false
  | some targetRoleLevel =>
      if effectiveRank currentRoles < targetRoleLevel then false else true

/-- Rank gate of `UserManagerController.RemoveRole` (same test as `AssignRole`). -/
def removeRoleAllowed (currentRoles : List String) (targetRoleName : String) : Bool :=
  match hierarchyLevel targetRoleName with
  | none => false
  | some targetRoleLevel =>
      if effectiveRank currentRoles < targetRoleLevel then false else true

/-- Rank gate of the initial-role branch of `UserManagerController.CreateUser`:
an unknown role is rejected (BadRequest), then `currentMaxLevel < targetRoleLevel`
is rejected (Forbidden). -/
def initialRoleAllowed (currentRoles : List String) (targetRoleName : String) : Bool :=
  match hierarchyLevel targetRoleName with
  | none => false
  | some targetRoleLevel =>
      if effectiveRank currentRoles < targetRoleLevel then false else true

/-! ## Theorems for the authorization claims -/

/-- Claim C1: user management (the `CanManageUser` predicate, and the rank gate of
user deletion) permits an acting user to manage a target exactly when the acting
user's effective rank is strictly greater than the target's; it is irreflexive,
so equal effective ranks (in particular a user and itself) can never manage each
other. -/
theorem canManageUser_strict_rank (acting target : List String) :
    (canManageUser acting target = true ↔
      effectiveRank target < effectiveRank acting)
    ∧ deleteUserRankAllows acting target = canManageUser acting target
    ∧ canManageUser acting acting = false := by
  refine ⟨by simp [canManageUser], ?_, by simp [canManageUser]⟩
  by_cases h : effectiveRank acting ≤ effectiveRank target
  · simp [deleteUserRankAllows, canManageUser, h, Nat.not_lt.mpr h]
  · simp [deleteUserRankAllows, canManageUser, h, Nat.lt_of_not_le h]

/-- Claim C2: role assignment, role removal and initial-role assignment at user
creation all use the same rank gate, which permits the action exactly when the
target role name is in the hierarchy and the acting user's effective rank is at
least the target role's level. -/
theorem assignRole_rank_gate (roles : List String) (r : String) :
    (assignRoleAllowed roles r = true ↔
      ∃ lvl, hierarchyLevel r = some lvl ∧ lvl ≤ effectiveRank roles)
    ∧ removeRoleAllowed roles r = assignRoleAllowed roles r
    ∧ initialRoleAllowed roles r = assignRoleAllowed roles r := by
  refine ⟨?_, rfl, rfl⟩
  cases h : hierarchyLevel r with
  | none => simp [assignRoleAllowed, h]
  | some lvl =>
      by_cases hle : effectiveRank roles < lvl
      · simp [assignRoleAllowed, h, hle, Nat.not_le.mpr hle]
      · simp [assignRoleAllowed, h, hle, Nat.le_of_not_lt hle]

/-- Counterexample to claim C3: with acting roles `["admin"]` and target roles
`["finance"]` both at effective rank 3, password reset is permitted (the gate is
not the strict `canManageUser` rule, which denies this pair). -/
theorem updateUserPassword_equal_rank_allowed :
    updateUserPasswordAllows ["admin"] ["finance"] = true
    ∧ canManageUser ["admin"] ["finance"] = false
    ∧ effectiveRank ["admin"] = 3 ∧ effectiveRank ["finance"] = 3 := by
  decide

/-- Claim C3 (amended): password reset on an existing target user is denied with
Forbidden exactly when the acting user's effective rank is strictly less than the
target user's effective rank; equal ranks are permitted, so the gate is the
greater-or-equal rule of role assignment, not the strict `canManageUser` rule. -/
theorem updateUserPassword_ge_gate (cur tgt : List String) :
    updateUserPasswordAllows cur tgt = false ↔
      effectiveRank cur < effectiveRank tgt := by
  by_cases h : effectiveRank cur < effectiveRank tgt
  · simp [updateUserPasswordAllows, h]
  · simp [updateUserPasswordAllows, h]

/-! ## Order data model (models `Order`, `OrderDetail`, `PickedOrder`) -/

/-- Line item of an order (`models.OrderDetail`). -/
structure OrderDetail where
  id : Nat
  orderID : Nat
  sku : String
  productName : String
  variant : String
  quantity : Int
  price : Int
deriving Repr, DecidableEq

/-- Fulfillment order (`models.Order`); pointer fields are `Option`, timestamps
are abstract `Nat` ticks, and the owned `OrderDetails` rows are carried inline. -/
structure Order where
  id : Nat
  orderGineeID : String
  processingStatus : String
  eventStatus : Option String
  channel : String
  store : String
  buyer : String
  address : String
  courier : String
  tracking : String
  sentBefore : Nat
  assignedBy : Option Nat
  assignedAt : Option Nat
  pickedBy : Option Nat
  pickedAt : Option Nat
  pendingBy : Option Nat
  pendingAt : Option Nat
  changedBy : Option Nat
  changedAt : Option Nat
  cancelledBy : Option Nat
  cancelledAt : Option Nat
  complained : Bool
  createdAt : Nat
  orderDetails : List OrderDetail
deriving Repr, DecidableEq

/-- Pick-completion receipt (`models.PickedOrder` as created by
`CompletePickingOrder`: the order's primary id and the picking user). -/
structure PickedOrder where
  orderID : Nat
  pickedBy : Nat
deriving Repr, DecidableEq

/-- Test `order.EventStatus != nil && *order.EventStatus == "cancelled"` used by
the guards of `UpdateOrder`, `DuplicateOrder`, `CancelOrder`, `AssignPicker`. -/
def isCancelled (o : Order) : Bool :=
  match o.eventStatus with
  | some s => s == "cancelled"
  | none => false

/-! ## Order state-machine transitions (controllers) -/

/-- Request body shared by `CreateOrderRequest.OrderDetails` items, the
`AddOrderDetail` body and the single-detail `UpdateOrderDetail` body (the Go
structs carry the same four fields sku, product name, variant, quantity). -/
structure CreateOrderDetailRequest where
  sku : String
  productName : String
  variant : String
  quantity : Int
deriving Repr, DecidableEq

/-- Request of `BulkCreateOrders` for one order (`CreateOrderRequest`); the
`status` field is present in the JSON binding but never read when building the
order. -/
structure CreateOrderRequest where
  orderGineeID : String
  status : String
  channel : String
  store : String
  buyer : String
  address : String
  courier : String
  tracking : String
  orderDetails : List CreateOrderDetailRequest
deriving Repr, DecidableEq

/-- Order value built by the loop body of `OrderController.BulkCreateOrders`:
`ProcessingStatus` is the literal "ready to pick" and every other field copies
the request (attribution fields start empty). -/
def orderFromCreateRequest (req : CreateOrderRequest) : Order :=
  { id := 0
    orderGineeID := req.orderGineeID
    processingStatus := "ready to pick"
    eventStatus := none
    channel := req.channel
    store := req.store
    buyer := req.buyer
    address := req.address
    courier := req.courier
    tracking := req.tracking
    sentBefore := 0
    assignedBy := none, assignedAt := none
    pickedBy := none, pickedAt := none
    pendingBy := none, pendingAt := none
    changedBy := none, changedAt := none
    cancelledBy := none, cancelledAt := none
    complained := false
    createdAt := 0
    orderDetails := req.orderDetails.map (fun d =>
      { id := 0, orderID := 0, sku := d.sku, productName := d.productName,
        variant := d.variant, quantity := d.quantity, price := 0 }) }

/-- Loop of `OrderController.BulkCreateOrders` over the request list: a request
whose `order_ginee_id` already exists is skipped, otherwise the order is created
(and its id becomes existing for the rest of the batch). Returns the created
orders. -/
def bulkCreateOrders (existing : List String) :
    List CreateOrderRequest → List Order
  | [] => []
  | req :: rest =>
      if existing.contains req.orderGineeID then
        bulkCreateOrders existing rest
      else
        orderFromCreateRequest req :: bulkCreateOrders (req.orderGineeID :: existing) rest

/-- `OrderController.UpdateOrderDetail` on a found order and found detail row.
The status guard is transcribed as written in the source:
`ProcessingStatus == "picking process" || ProcessingStatus != "qc process"`. -/
def updateOrderDetail (detailID : Nat) (req : CreateOrderDetailRequest)
    (o : Order) : Except ApiError Order :=
  if o.processingStatus == "picking process" || o.processingStatus != "qc process" then
    .error .forbidden
  else
    match o.orderDetails.find? (fun d => d.id == detailID) with
    | none => .error .notFound
    | some _ =>
        .ok { o with orderDetails := o.orderDetails.map (fun d =>
          if d.id == detailID then
            { d with
              sku := req.sku, productName := req.productName,
              variant := req.variant, quantity := req.quantity }
          else d) }

/-- `OrderController.AddOrderDetail` on a found order; `newId` is the primary id
the database gives the inserted row. -/
def addOrderDetail (newId : Nat) (req : CreateOrderDetailRequest)
    (o : Order) : Except ApiError Order :=
  if o.processingStatus == "picking process" || o.processingStatus == "qc process" then
    .error .forbidden
  else
    .ok { o with orderDetails := o.orderDetails ++
      [{ id := newId, orderID := o.id, sku := req.sku, productName := req.productName,
         variant := req.variant, quantity := req.quantity, price := 0 }] }

/-- `OrderController.RemoveOrderDetail` on a found order: status guard, then the
last-detail check (`detailCount <= 1`), then deletion of the row with the given
primary id. -/
def removeOrderDetail (detailID : Nat) (o : Order) : Except ApiError Order :=
  if o.processingStatus == "picking process" || o.processingStatus == "qc process" then
    .error .forbidden
  else if o.orderDetails.length ≤ 1 then
    .error .badRequest
  else
    match o.orderDetails.find? (fun d => d.id == detailID) with
    | none => .error .notFound
    | some _ =>
        .ok { o with orderDetails := o.orderDetails.eraseP (fun d => d.id == detailID) }

/-- Detail item of the full-update request (`UpdateOrderDetailRequest` with an
`ID` field: 0 inserts, a known id updates, an omitted existing id deletes). -/
structure UpdateOrderDetailRequest where
  id : Nat
  sku : String
  productName : String
  variant : String
  quantity : Int
deriving Repr, DecidableEq

/-- Full-update request (`UpdateOrderRequest`). -/
structure UpdateOrderRequest where
  channel : String
  store : String
  buyer : String
  address : String
  courier : String
  tracking : String
  orderDetails : List UpdateOrderDetailRequest
deriving Repr, DecidableEq

/-- Field overwrite performed by the update branch of the reconcile loop in
`OrderController.UpdateOrder`. -/
def applyDetailUpdate (d : OrderDetail) (r : UpdateOrderDetailRequest) : OrderDetail :=
  { d with
    sku := r.sku, productName := r.productName,
    variant := r.variant, quantity := r.quantity }

/-- Committed effect of the detail-reconcile loop of `OrderController.UpdateOrder`:
a request item referencing an id that is not an existing row aborts (rollback);
otherwise existing rows named by some request item keep the values of the last
such item, unnamed existing rows are deleted, and id-0 items are inserted as new
rows (ids `nextId`, `nextId+1`, ...). -/
def reconcileDetails (orderID nextId : Nat) (existing : List OrderDetail)
    (reqs : List UpdateOrderDetailRequest) : Except ApiError (List OrderDetail) :=
  if reqs.all (fun r => r.id == 0 || existing.any (fun d => d.id == r.id)) then
    let kept := existing.filterMap (fun d =>
      match (reqs.filter (fun r => r.id != 0 && r.id == d.id)).getLast? with
      | some r => some (applyDetailUpdate d r)
      | none => none)
    let inserted := (reqs.filter (fun r => r.id == 0)).enum.map (fun p =>
      { id := nextId + p.1, orderID := orderID, sku := p.2.sku,
        productName := p.2.productName, variant := p.2.variant,
        quantity := p.2.quantity, price := 0 : OrderDetail })
    .ok (kept ++ inserted)
  else
    .error .notFound

/-- `OrderController.UpdateOrder` on a found order: status-exclusion guard,
cancelled guard, header replacement with `event_status = "changed"` and
changed-by/at, detail reconcile, and the final rejection (rollback) when no
detail row would remain. -/
def updateOrder (uid now nextId : Nat) (req : UpdateOrderRequest)
    (o : Order) : Except ApiError Order :=
  if o.processingStatus == "picking process" || o.processingStatus == "qc process" then
    .error .forbidden
  else if isCancelled o then
    .error .badRequest
  else
    match reconcileDetails o.id nextId o.orderDetails req.orderDetails with
    | .error e => .error e
    | .ok newDetails =>
        if newDetails.length == 0 then
          .error .badRequest
        else
          .ok { o with
            eventStatus := some "changed"
            channel := req.channel, store := req.store, buyer := req.buyer
            address := req.address, courier := req.courier, tracking := req.tracking
            changedBy := some uid, changedAt := some now
            orderDetails := newDetails }

/-- `OrderController.CancelOrder` on a found order. -/
def cancelOrder (uid now : Nat) (o : Order) : Except ApiError Order :=
  if o.processingStatus == "picking process" || o.processingStatus == "qc process" then
    .error .forbidden
  else if isCancelled o then
    .error .badRequest
  else
    .ok { o with
      eventStatus := some "cancelled",
      cancelledBy := some uid, cancelledAt := some now }

/-- `OrderController.AssignPicker` on a found order and existing picker. -/
def assignPicker (uid pickerID now : Nat) (o : Order) : Except ApiError Order :=
  if isCancelled o then
    .error .badRequest
  else if o.processingStatus == "picking process" then
    .error .badRequest
  else if o.processingStatus == "qc process" || o.processingStatus == "completed" then
    .error .badRequest
  else
    .ok { o with
      assignedBy := some uid, assignedAt := some now,
      pickedBy := some pickerID, processingStatus := "picking process" }

/-- `MobileOrderController.PickingOrder` on a given order: its lookup is
`Where("id = ? AND processing_status IN = ?", ...)`, and gorm expands the slice
into `processing_status IN = ('ready to pick','pending picking')` — invalid SQL
under the project's PostgreSQL driver. Every execution therefore returns a
database syntax error (never `ErrRecordNotFound`), the handler answers an
internal error, and no order is ever claimed or mutated. -/
def pickingOrder (_uid _now : Nat) (_o : Order) : Except ApiError Order :=
  .error .internalError

/-- `PendingPickOrders` (order and mobile controllers share this body) on a
found order, after the coordinator credential check. -/
def pendingPickOrder (uid now : Nat) (o : Order) : Except ApiError Order :=
  if o.processingStatus != "picking process" then
    .error .badRequest
  else
    .ok { o with
      processingStatus := "pending picking",
      pendingBy := some uid, pendingAt := some now,
      pickedBy := none, assignedBy := none, assignedAt := none }

/-- Byte-slice `s[:len(s)-n]` used by `DuplicateOrder` to strip the added
suffix (modelled on the character list of the string). -/
def goDropLastBytes (s : String) (n : Nat) : String :=
  ⟨s.data.take (s.data.length - n)⟩

/-- `OrderController.DuplicateOrder` on a found order: after the guards, one
transaction renames the original (`order_ginee_id` gains "-X2", tracking gains
"X-") and inserts a new order holding the freed identifiers with copies of every
detail row; `newId` is the new order's primary id, `nextDetailId` the first
primary id of the copied rows. -/
def duplicateOrder (uid now newId nextDetailId : Nat) (o : Order) :
    Except ApiError (Order × Order) :=
  if o.processingStatus == "picking process" || o.processingStatus == "qc process" then
    .error .forbidden
  else if isCancelled o then
    .error .badRequest
  else
    let originalTracking := o.tracking
    let renamed := { o with
      orderGineeID := o.orderGineeID ++ "-X2"
      tracking := "X-" ++ o.tracking }
    let dup : Order :=
      { id := newId
        orderGineeID := goDropLastBytes renamed.orderGineeID 3
        processingStatus := renamed.processingStatus
        eventStatus := some "duplicated"
        channel := renamed.channel, store := renamed.store, buyer := renamed.buyer
        address := renamed.address, courier := renamed.courier
        tracking := originalTracking
        sentBefore := renamed.sentBefore
        assignedBy := none, assignedAt := none
        pickedBy := none, pickedAt := none
        pendingBy := none, pendingAt := none
        changedBy := some uid, changedAt := some now
        cancelledBy := none, cancelledAt := none
        complained := false
        createdAt := now
        orderDetails := renamed.orderDetails.enum.map (fun p =>
          { id := nextDetailId + p.1, orderID := newId, sku := p.2.sku,
            productName := p.2.productName, variant := p.2.variant,
            quantity := p.2.quantity, price := 0 }) }
    .ok (renamed, dup)

/-- Shared state projection for `CompletePickingOrder`: the order table and the
`PickedOrder` receipt table. -/
structure WarehouseState where
  orders : List Order
  pickedOrders : List PickedOrder
deriving Repr, DecidableEq

/-- `MobileOrderController.CompletePickingOrder`: inside one transaction, look
up the order with the given id whose `picked_by` is the acting user and whose
status is "picking process" (otherwise not-found), insert one `PickedOrder`
receipt, and set `processing_status = "picking complete"` with `picked_at`. -/
def completePickingOrder (uid now orderID : Nat) (s : WarehouseState) :
    Except ApiError WarehouseState :=
  match s.orders.find? (fun o =>
      o.id == orderID && o.pickedBy == some uid &&
      o.processingStatus == "picking process") with
  | none => .error .notFound
  | some o =>
      let updated := { o with
        processingStatus := "picking complete",
        pickedAt := some now }
      .ok { orders := s.orders.map (fun x => if x.id == orderID then updated else x)
            pickedOrders := s.pickedOrders ++ [{ orderID := o.id, pickedBy := uid }] }

/-! ## Concrete sample data used to evaluate the operations -/

/-- Boolean success test on a handler outcome. -/
def succeeds {ε α : Type} : Except ε α → Bool
  | .ok _ => true
  | .error _ => false

/-- Sample detail row. -/
def baseDetail : OrderDetail :=
  { id := 1, orderID := 1, sku := "SKU-1", productName := "Prod",
    variant := "", quantity := 1, price := 0 }

/-- Sample order in the "ready to pick" state with one detail row. -/
def baseOrder : Order :=
  { id := 1
    orderGineeID := "G-1"
    processingStatus := "ready to pick"
    eventStatus := none
    channel := "Shopee", store := "Store", buyer := "Buyer"
    address := "Addr", courier := "JNE", tracking := "TRK-1"
    sentBefore := 0
    assignedBy := none, assignedAt := none
    pickedBy := none, pickedAt := none
    pendingBy := none, pendingAt := none
    changedBy := none, changedAt := none
    cancelledBy := none, cancelledAt := none
    complained := false
    createdAt := 0
    orderDetails := [baseDetail] }

/-- Sample single-detail request body. -/
def sampleDetailReq : CreateOrderDetailRequest :=
  { sku := "SKU-2", productName := "Prod2", variant := "v", quantity := 2 }

/-- The sample order after a cancellation (`event_status = "cancelled"`;
`CancelOrder` leaves `processing_status` untouched). -/
def cancelledReadyOrder : Order :=
  { baseOrder with
    eventStatus := some "cancelled"
    cancelledBy := some 2, cancelledAt := some 10 }

/-! ## Theorems for the state-machine claims -/

/-- Claim C4 (code bug): the status guard of the single-detail update rejects an
order in "ready to pick" (the very status its own error message demands) and
permits modification during "qc process", because the source tests
`!= "qc process"` where its siblings (`AddOrderDetail` here) test
`== "qc process"`. -/
theorem updateOrderDetail_guard_inverted :
    updateOrderDetail 1 sampleDetailReq baseOrder = .error .forbidden
    ∧ succeeds (updateOrderDetail 1 sampleDetailReq
        { baseOrder with processingStatus := "qc process" }) = true
    ∧ succeeds (addOrderDetail 9 sampleDetailReq baseOrder) = true
    ∧ addOrderDetail 9 sampleDetailReq
        { baseOrder with processingStatus := "qc process" } = .error .forbidden := by
  decide

/-- Attempted mutating transition on an order, with its operator and tick
arguments. -/
inductive OrderAttempt where
  | assign (uid pickerID now : Nat)
  | pick (uid now : Nat)
  | complete (uid now orderID : Nat)
  | pending (uid now : Nat)
  | update (uid now nextId : Nat) (req : UpdateOrderRequest)
  | cancel (uid now : Nat)
  | duplicate (uid now newId nextDetailId : Nat)
deriving Repr

/-- Committed row for an order after one attempted transition: the transition's
result when it commits, the unchanged row when it is rejected (every rejection
rolls back). Pick completion is run on the state holding that single row, and a
duplicate keeps the original (renamed) row. -/
def applyAttempt (a : OrderAttempt) (o : Order) : Order :=
  match a with
  | .assign uid pickerID now =>
      match assignPicker uid pickerID now o with
      | .ok o' => o'
      | .error _ => o
  | .pick uid now =>
      match pickingOrder uid now o with
      | .ok o' => o'
      | .error _ => o
  | .complete uid now orderID =>
      match completePickingOrder uid now orderID { orders := [o], pickedOrders := [] } with
      | .ok s => s.orders.headD o
      | .error _ => o
  | .pending uid now =>
      match pendingPickOrder uid now o with
      | .ok o' => o'
      | .error _ => o
  | .update uid now nextId req =>
      match updateOrder uid now nextId req o with
      | .ok o' => o'
      | .error _ => o
  | .cancel uid now =>
      match cancelOrder uid now o with
      | .ok o' => o'
      | .error _ => o
  | .duplicate uid now newId nextDetailId =>
      match duplicateOrder uid now newId nextDetailId o with
      | .ok p => p.1
      | .error _ => o

/-- Committed row after a sequence of attempted transitions. -/
def runAttempts : List OrderAttempt → Order → Order
  | [], o => o
  | a :: rest, o => runAttempts rest (applyAttempt a o)

/-- Every mutating transition is rejected on an order row that is cancelled and
not in "picking process" (the only state the cancel transition can leave a row
in, since its guard excludes "picking process" and "qc process"): assign
picker, full update, cancel again and duplicate check `event_status`; the
self-service pick always fails on its malformed query; pick completion and
set-pending require "picking process". -/
theorem cancelledRow_transitions_fail (c : Order) (hc : isCancelled c = true)
    (hs : (c.processingStatus == "picking process") = false) :
    (∀ uid pickerID now, ∃ e, assignPicker uid pickerID now c = .error e)
    ∧ (∀ uid now, ∃ e, pickingOrder uid now c = .error e)
    ∧ (∀ uid now orderID rs, ∃ e,
        completePickingOrder uid now orderID
          { orders := [c], pickedOrders := rs } = .error e)
    ∧ (∀ uid now, ∃ e, pendingPickOrder uid now c = .error e)
    ∧ (∀ uid now nextId req, ∃ e, updateOrder uid now nextId req c = .error e)
    ∧ (∀ uid now, ∃ e, cancelOrder uid now c = .error e)
    ∧ (∀ uid now newId nextDetailId, ∃ e,
        duplicateOrder uid now newId nextDetailId c = .error e) := by
  refine ⟨?_, ?_, ?_, ?_, ?_, ?_, ?_⟩
  · intro uid pickerID now
    exact ⟨.badRequest, by simp [assignPicker, hc]⟩
  · intro uid now
    exact ⟨.internalError, rfl⟩
  · intro uid now orderID rs
    refine ⟨.notFound, ?_⟩
    have hfind : List.find? (fun o => o.id == orderID && o.pickedBy == some uid &&
        o.processingStatus == "picking process") [c] = none := by
      rw [List.find?_cons_of_neg, List.find?_nil]
      simp [hs]
    simp [completePickingOrder, hfind]
  · intro uid now
    refine ⟨.badRequest, ?_⟩
    have hcond : (c.processingStatus != "picking process") = true := by
      simp [bne, hs]
    simp [pendingPickOrder, hcond]
  · intro uid now nextId req
    by_cases hg : (c.processingStatus == "picking process"
        || c.processingStatus == "qc process") = true
    · exact ⟨.forbidden, by simp [updateOrder, hg]⟩
    · exact ⟨.badRequest, by simp [updateOrder, hg, hc]⟩
  · intro uid now
    by_cases hg : (c.processingStatus == "picking process"
        || c.processingStatus == "qc process") = true
    · exact ⟨.forbidden, by simp [cancelOrder, hg]⟩
    · exact ⟨.badRequest, by simp [cancelOrder, hg, hc]⟩
  · intro uid now newId nextDetailId
    by_cases hg : (c.processingStatus == "picking process"
        || c.processingStatus == "qc process") = true
    · exact ⟨.forbidden, by simp [duplicateOrder, hg]⟩
    · exact ⟨.badRequest, by simp [duplicateOrder, hg, hc]⟩

/-- Claim C5: an order the cancel transition has committed is cancelled, every
subsequent mutating transition on it fails (assign picker, self-service pick —
whose malformed `IN =` query errors on every execution — pick completion, set
pending, full update, cancel again, duplicate), and no sequence of attempted
transitions ever changes its row. -/
theorem cancelled_order_never_mutated (o o' : Order) (uid now : Nat)
    (h : cancelOrder uid now o = .ok o') :
    isCancelled o' = true
    ∧ (∀ uid2 pickerID now2, ∃ e, assignPicker uid2 pickerID now2 o' = .error e)
    ∧ (∀ uid2 now2, ∃ e, pickingOrder uid2 now2 o' = .error e)
    ∧ (∀ uid2 now2 orderID rs, ∃ e,
        completePickingOrder uid2 now2 orderID
          { orders := [o'], pickedOrders := rs } = .error e)
    ∧ (∀ uid2 now2, ∃ e, pendingPickOrder uid2 now2 o' = .error e)
    ∧ (∀ uid2 now2 nextId req, ∃ e, updateOrder uid2 now2 nextId req o' = .error e)
    ∧ (∀ uid2 now2, ∃ e, cancelOrder uid2 now2 o' = .error e)
    ∧ (∀ uid2 now2 newId nextDetailId, ∃ e,
        duplicateOrder uid2 now2 newId nextDetailId o' = .error e)
    ∧ (∀ attempts, runAttempts attempts o' = o') := by
  have hC : isCancelled o' = true ∧ (o'.processingStatus == "picking process") = false := by
    unfold cancelOrder at h
    split at h
    · exact absurd h (by simp)
    · rename_i hguard
      split at h
      · exact absurd h (by simp)
      · cases h
        constructor
        · simp [isCancelled]
        · have hgf : (o.processingStatus == "picking process"
              || o.processingStatus == "qc process") = false := by
            revert hguard
            cases o.processingStatus == "picking process"
              || o.processingStatus == "qc process" <;> simp
          exact (Bool.or_eq_false_iff.mp hgf).1
  obtain ⟨hc, hs⟩ := hC
  obtain ⟨ha, hpk, hcp, hpend, hupd, hcan, hdup⟩ :=
    cancelledRow_transitions_fail o' hc hs
  have hfix : ∀ a : OrderAttempt, applyAttempt a o' = o' := by
    intro a
    cases a with
    | assign u p n => obtain ⟨e, he⟩ := ha u p n; simp [applyAttempt, he]
    | pick u n => obtain ⟨e, he⟩ := hpk u n; simp [applyAttempt, he]
    | complete u n oid => obtain ⟨e, he⟩ := hcp u n oid []; simp [applyAttempt, he]
    | pending u n => obtain ⟨e, he⟩ := hpend u n; simp [applyAttempt, he]
    | update u n nid req => obtain ⟨e, he⟩ := hupd u n nid req; simp [applyAttempt, he]
    | cancel u n => obtain ⟨e, he⟩ := hcan u n; simp [applyAttempt, he]
    | duplicate u n nid ndid => obtain ⟨e, he⟩ := hdup u n nid ndid; simp [applyAttempt, he]
  have hrun : ∀ attempts, runAttempts attempts o' = o' := by
    intro attempts
    induction attempts with
    | nil => rfl
    | cons a rest ih => rw [runAttempts, hfix a]; exact ih
  exact ⟨hc, ha, hpk, hcp, hpend, hupd, hcan, hdup, hrun⟩

/-- Witness for claim C5: cancelling the sample order commits the sample
cancelled row, and a concrete sequence of pick, pending, assign and re-cancel
attempts leaves it unchanged. -/
theorem cancelled_order_never_mutated_witness :
    isCancelled cancelledReadyOrder = true
    ∧ runAttempts
        [OrderAttempt.pick 7 100, OrderAttempt.pending 3 60,
         OrderAttempt.assign 2 7 70, OrderAttempt.cancel 4 80]
        cancelledReadyOrder = cancelledReadyOrder :=
  ⟨(cancelled_order_never_mutated baseOrder cancelledReadyOrder 2 10 (by decide)).1,
   (cancelled_order_never_mutated baseOrder cancelledReadyOrder 2 10
      (by decide)).2.2.2.2.2.2.2.2 _⟩

/-- Content projection of a detail row (sku, product name, variant, quantity),
the fields the duplicate must preserve. -/
def detailContent (d : OrderDetail) : String × String × String × Int :=
  (d.sku, d.productName, d.variant, d.quantity)

/-- Dropping the last three bytes right after appending "-X2" restores the
original string. -/
theorem goDropLastBytes_append_X2 (s : String) :
    goDropLastBytes (s ++ "-X2") 3 = s := by
  cases s with
  | mk l =>
      have hdata : ((⟨l⟩ : String) ++ "-X2").data = l ++ ['-', 'X', '2'] := rfl
      apply String.ext
      simp only [goDropLastBytes, hdata, List.length_append, List.length_cons,
        List.length_nil]
      have : l.length + (0 + 1 + 1 + 1) - 3 = l.length := by omega
      rw [this, List.take_left]

/-- Claim C6: on a non-cancelled order outside the protected statuses, the
duplicate transition commits two orders: the original renamed to external id
`E ++ "-X2"` and tracking `"X-" ++ T`, and a new order holding the original
external id `E` and tracking `T` whose detail rows have the same contents
(sku, product name, variant, quantity) as the original's, which are unchanged. -/
theorem duplicateOrder_identifiers (o : Order) (uid now newId nextDetailId : Nat)
    (hs : (o.processingStatus == "picking process"
        || o.processingStatus == "qc process") = false)
    (hc : isCancelled o = false) :
    (duplicateOrder uid now newId nextDetailId o).map (fun p =>
      (p.1.orderGineeID, p.1.tracking, p.1.orderDetails,
       p.2.orderGineeID, p.2.tracking, p.2.orderDetails.map detailContent)) =
    .ok (o.orderGineeID ++ "-X2", "X-" ++ o.tracking, o.orderDetails,
         o.orderGineeID, o.tracking, o.orderDetails.map detailContent) := by
  simp only [duplicateOrder, hs, hc, Bool.false_eq_true, if_false, Except.map,
    goDropLastBytes_append_X2]
  refine congrArg Except.ok ?_
  have hdet : (o.orderDetails.enum.map (fun p =>
      ({ id := nextDetailId + p.1, orderID := newId, sku := p.2.sku,
         productName := p.2.productName, variant := p.2.variant,
         quantity := p.2.quantity, price := 0 } : OrderDetail))).map detailContent
      = o.orderDetails.map detailContent := by
    rw [List.map_map]
    conv_rhs => rw [← List.enum_map_snd o.orderDetails, List.map_map]
    rfl
  simp [hdet]

/-- Witness for claim C6 at the sample order. -/
theorem duplicateOrder_identifiers_witness :
    (baseOrder.processingStatus == "picking process"
      || baseOrder.processingStatus == "qc process") = false
    ∧ isCancelled baseOrder = false
    ∧ (duplicateOrder 3 50 2 10 baseOrder).map (fun p =>
        (p.1.orderGineeID, p.1.tracking, p.1.orderDetails,
         p.2.orderGineeID, p.2.tracking, p.2.orderDetails.map detailContent)) =
      .ok (baseOrder.orderGineeID ++ "-X2", "X-" ++ baseOrder.tracking,
           baseOrder.orderDetails, baseOrder.orderGineeID, baseOrder.tracking,
           baseOrder.orderDetails.map detailContent) :=
  ⟨by decide, by decide,
    duplicateOrder_identifiers baseOrder 3 50 2 10 (by decide) (by decide)⟩

/-- Claim C7: starting from an order holding at least one detail row, every
operation that commits (detail add, single-detail update, detail remove, full
update with reconcile, duplicate) leaves at least one detail row on every
resulting order; removing the last remaining row is rejected (and a rejected
operation commits nothing); orders built by bulk intake from a request with a
nonempty detail list start with at least one row. -/
theorem orderDetails_atLeastOne (o : Order) (h : 1 ≤ o.orderDetails.length) :
    (∀ newId req o', addOrderDetail newId req o = .ok o' →
        1 ≤ o'.orderDetails.length)
    ∧ (∀ detailID req o', updateOrderDetail detailID req o = .ok o' →
        1 ≤ o'.orderDetails.length)
    ∧ (∀ detailID o', removeOrderDetail detailID o = .ok o' →
        1 ≤ o'.orderDetails.length)
    ∧ (∀ detailID, o.orderDetails.length = 1 →
        ∃ e, removeOrderDetail detailID o = .error e)
    ∧ (∀ uid now nextId req o', updateOrder uid now nextId req o = .ok o' →
        1 ≤ o'.orderDetails.length)
    ∧ (∀ uid now newId nextDetailId op,
        duplicateOrder uid now newId nextDetailId o = .ok op →
        1 ≤ op.1.orderDetails.length ∧ 1 ≤ op.2.orderDetails.length)
    ∧ (∀ req : CreateOrderRequest, req.orderDetails ≠ [] →
        1 ≤ (orderFromCreateRequest req).orderDetails.length) := by
  refine ⟨?_, ?_, ?_, ?_, ?_, ?_, ?_⟩
  · intro newId req o' hok
    unfold addOrderDetail at hok
    split at hok
    · exact absurd hok (by simp)
    · cases hok
      simp only [List.length_append, List.length_cons, List.length_nil]
      omega
  · intro detailID req o' hok
    unfold updateOrderDetail at hok
    split at hok
    · exact absurd hok (by simp)
    · split at hok
      · exact absurd hok (by simp)
      · cases hok
        simpa using h
  · intro detailID o' hok
    unfold removeOrderDetail at hok
    split at hok
    · exact absurd hok (by simp)
    · split at hok
      · exact absurd hok (by simp)
      · split at hok
        · exact absurd hok (by simp)
        · cases hok
          have hge := List.le_length_eraseP (p := fun d => d.id == detailID)
            (l := o.orderDetails)
          simp only
          omega
  · intro detailID hone
    unfold removeOrderDetail
    split
    · exact ⟨.forbidden, rfl⟩
    · split
      · exact ⟨.badRequest, rfl⟩
      · omega
  · intro uid now nextId req o' hok
    unfold updateOrder at hok
    split at hok
    · exact absurd hok (by simp)
    · split at hok
      · exact absurd hok (by simp)
      · split at hok
        · exact absurd hok (by simp)
        · rename_i newDetails heq
          split at hok
          · exact absurd hok (by simp)
          · rename_i hnz
            cases hok
            simp only [Nat.beq_eq_true_eq] at hnz
            simp only
            omega
  · intro uid now newId nextDetailId op hok
    unfold duplicateOrder at hok
    split at hok
    · exact absurd hok (by simp)
    · split at hok
      · exact absurd hok (by simp)
      · cases hok
        constructor
        · simpa using h
        · simpa using h
  · intro req hne
    simp only [orderFromCreateRequest, List.length_map]
    have := List.length_pos.mpr hne
    omega

/-- Witness for claim C7 at the sample order: its single remaining detail row
cannot be removed. -/
theorem orderDetails_atLeastOne_witness :
    1 ≤ baseOrder.orderDetails.length
    ∧ (∃ e, removeOrderDetail 1 baseOrder = Except.error e) :=
  ⟨by decide,
    (orderDetails_atLeastOne baseOrder (by decide)).2.2.2.1 1 (by decide)⟩

/-- Claim C8: a pick completion commits only when the table holds an order with
the requested id whose assigned picker is the acting user and whose status is
"picking process"; the committed state extends the receipt table by exactly one
`PickedOrder` referencing that order and the acting user, sets that order's
status to "picking complete" with its picked-at tick, and touches no other
order; a non-matching request commits nothing (the transaction model returns no
state on error). -/
theorem completePicking_spec (uid now orderID : Nat) (s s' : WarehouseState)
    (h : completePickingOrder uid now orderID s = .ok s') :
    (∃ o, o ∈ s.orders ∧ o.id = orderID ∧ o.pickedBy = some uid
        ∧ o.processingStatus = "picking process")
    ∧ s'.pickedOrders = s.pickedOrders ++ [{ orderID := orderID, pickedBy := uid }]
    ∧ (∀ x ∈ s'.orders, x.id = orderID →
        x.processingStatus = "picking complete" ∧ x.pickedAt = some now)
    ∧ (∀ x ∈ s'.orders, x.id ≠ orderID → x ∈ s.orders) := by
  unfold completePickingOrder at h
  cases hfind : s.orders.find? (fun o =>
      o.id == orderID && o.pickedBy == some uid &&
      o.processingStatus == "picking process") with
  | none => rw [hfind] at h; exact absurd h (by simp)
  | some o0 =>
      rw [hfind] at h
      cases h
      have hmem := List.mem_of_find?_eq_some hfind
      have hpred := List.find?_some hfind
      simp only [Bool.and_eq_true, beq_iff_eq] at hpred
      obtain ⟨⟨hid, hpb⟩, hst⟩ := hpred
      refine ⟨⟨o0, hmem, hid, hpb, hst⟩, by rw [hid], ?_, ?_⟩
      · intro x hx hxid
        obtain ⟨y, hy, hfy⟩ := List.mem_map.mp hx
        by_cases hyid : (y.id == orderID) = true
        · rw [if_pos hyid] at hfy
          rw [← hfy]
          exact ⟨rfl, rfl⟩
        · rw [if_neg hyid] at hfy
          rw [← hfy] at hxid
          exact absurd hxid (by simpa using hyid)
      · intro x hx hxid
        obtain ⟨y, hy, hfy⟩ := List.mem_map.mp hx
        by_cases hyid : (y.id == orderID) = true
        · rw [if_pos hyid] at hfy
          rw [← hfy] at hxid
          exact absurd (hid ▸ hxid) (by simp)
        · rw [if_neg hyid] at hfy
          rw [← hfy]
          exact hy

/-- Shared state holding one order assigned to picker 7 in "picking process". -/
def pickingStateBefore : WarehouseState :=
  { orders := [{ baseOrder with
      processingStatus := "picking process"
      assignedBy := some 2, assignedAt := some 20, pickedBy := some 7 }]
    pickedOrders := [] }

/-- The state committed by picker 7 completing order 1 at tick 100. -/
def pickingStateAfter : WarehouseState :=
  { orders := [{ baseOrder with
      processingStatus := "picking complete"
      assignedBy := some 2, assignedAt := some 20, pickedBy := some 7
      pickedAt := some 100 }]
    pickedOrders := [{ orderID := 1, pickedBy := 7 }] }

/-- Witness for claim C8 at the sample picking state. -/
theorem completePicking_spec_witness :
    (∃ o, o ∈ pickingStateBefore.orders ∧ o.id = 1 ∧ o.pickedBy = some 7
        ∧ o.processingStatus = "picking process")
    ∧ pickingStateAfter.pickedOrders =
        pickingStateBefore.pickedOrders ++ [{ orderID := 1, pickedBy := 7 }]
    ∧ (∀ x ∈ pickingStateAfter.orders, x.id = 1 →
        x.processingStatus = "picking complete" ∧ x.pickedAt = some 100)
    ∧ (∀ x ∈ pickingStateAfter.orders, x.id ≠ 1 → x ∈ pickingStateBefore.orders) :=
  completePicking_spec 7 100 1 pickingStateBefore pickingStateAfter (by decide)

/-! ## Tracking-flow reconstruction (controllers ribbon flow) -/

/-- QC-stage record (`models.QcRibbon`), keyed by tracking; the joined operator
is carried as the `qc_by` id. -/
structure QcRibbon where
  id : Nat
  tracking : String
  qcBy : Option Nat
  createdAt : Nat
deriving Repr, DecidableEq

/-- Outbound record (`models.Outbound`), keyed by tracking. -/
structure Outbound where
  id : Nat
  tracking : String
  outboundBy : Option Nat
  expedition : String
  expeditionColor : String
  createdAt : Nat
deriving Repr, DecidableEq

/-- QC section of a flow snapshot (`QcRibbonFlowInfo`). -/
structure QcRibbonFlowInfo where
  operatorId : Option Nat
  createdAt : Nat
deriving Repr, DecidableEq

/-- Outbound section of a flow snapshot (`RibbonOutboundFlowInfo`). -/
structure RibbonOutboundFlowInfo where
  operatorId : Option Nat
  expedition : String
  expeditionColor : String
  createdAt : Nat
deriving Repr, DecidableEq

/-- Order section of a flow snapshot (`RibbonOrderFlowInfo`). -/
structure RibbonOrderFlowInfo where
  tracking : String
  orderGineeID : String
  complained : Bool
  createdAt : Nat
deriving Repr, DecidableEq

/-- Flow snapshot (`RibbonFlowResponse`): each stage section optional. -/
structure RibbonFlowResponse where
  tracking : String
  qcRibbon : Option QcRibbonFlowInfo
  outbound : Option RibbonOutboundFlowInfo
  order : Option RibbonOrderFlowInfo
deriving Repr, DecidableEq

/-- Record families probed by the reconstructor, sharing only the tracking
string. -/
structure RibbonDB where
  qcRibbons : List QcRibbon
  outbounds : List Outbound
  orders : List Order
deriving Repr, DecidableEq

/-- `RibbonFlowController.buildRibbonFlow`: probe the three families by exact
tracking match and attach whichever sections were found. -/
def buildRibbonFlow (db : RibbonDB) (tracking : String) : RibbonFlowResponse :=
  { tracking := tracking
    qcRibbon := (db.qcRibbons.find? (fun q => q.tracking == tracking)).map
      (fun q => { operatorId := q.qcBy, createdAt := q.createdAt })
    outbound := (db.outbounds.find? (fun ob => ob.tracking == tracking)).map
      (fun ob => { operatorId := ob.outboundBy, expedition := ob.expedition,
                   expeditionColor := ob.expeditionColor, createdAt := ob.createdAt })
    order := (db.orders.find? (fun o => o.tracking == tracking)).map
      (fun o => { tracking := o.tracking, orderGineeID := o.orderGineeID,
                  complained := o.complained, createdAt := o.createdAt }) }

/-- `RibbonFlowController.GetRibbonFlow`: reject an empty tracking, build the
flow, and answer not-found exactly when the QC-anchor section is absent. -/
def getRibbonFlow (db : RibbonDB) (tracking : String) :
    Except ApiError RibbonFlowResponse :=
  if tracking == "" then .error .badRequest
  else
    let flow := buildRibbonFlow db tracking
    if flow.qcRibbon.isNone then .error .notFound
    else .ok flow

/-- Claim C9: for a nonempty tracking, the single-tracking lookup answers
not-found exactly when no QC-stage (anchor) record with that tracking exists;
when it succeeds, the anchor section is present and the outbound and order
sections are present exactly when the corresponding record exists (a missing
secondary record is not an error). -/
theorem getRibbonFlow_anchor (db : RibbonDB) (t : String) (ht : t ≠ "") :
    (getRibbonFlow db t = .error .notFound ↔
      db.qcRibbons.find? (fun q => q.tracking == t) = none)
    ∧ (∀ flow, getRibbonFlow db t = .ok flow →
        flow.qcRibbon.isSome = true
        ∧ flow.outbound.isSome =
            (db.outbounds.find? (fun ob => ob.tracking == t)).isSome
        ∧ flow.order.isSome =
            (db.orders.find? (fun o => o.tracking == t)).isSome) := by
  have hbe : (t == "") = false := by
    simp only [beq_eq_false_iff_ne]
    exact ht
  cases hq : db.qcRibbons.find? (fun q => q.tracking == t) with
  | none =>
      constructor
      · simp [getRibbonFlow, buildRibbonFlow, hbe, hq]
      · intro flow hflow
        simp [getRibbonFlow, buildRibbonFlow, hbe, hq] at hflow
  | some q =>
      constructor
      · simp [getRibbonFlow, buildRibbonFlow, hbe, hq]
      · intro flow hflow
        simp only [getRibbonFlow, buildRibbonFlow, hbe, Bool.false_eq_true,
          if_false, hq, Option.map_some, Option.isNone_some] at hflow
        rw [if_neg (by simp)] at hflow
        cases hflow
        simp

/-- Database holding an outbound record and an order for tracking "TRK-1" but
no QC-stage record at all. -/
def flowDBNoAnchor : RibbonDB :=
  { qcRibbons := []
    outbounds := [{ id := 1, tracking := "TRK-1", outboundBy := some 2,
                    expedition := "JNE", expeditionColor := "red", createdAt := 5 }]
    orders := [baseOrder] }

/-- Witness for claim C9: the tracking present only in Outbound and Order is a
not-found lookup. -/
theorem getRibbonFlow_anchor_witness :
    getRibbonFlow flowDBNoAnchor "TRK-1" = .error .notFound ↔
      flowDBNoAnchor.qcRibbons.find? (fun q => q.tracking == "TRK-1") = none :=
  (getRibbonFlow_anchor flowDBNoAnchor "TRK-1" (by decide)).1

/-- Claim C10: every order created by bulk intake starts in "ready to pick",
whatever status the request carried. -/
theorem bulkCreate_ready_to_pick (existing : List String)
    (reqs : List CreateOrderRequest) :
    ∀ o ∈ bulkCreateOrders existing reqs, o.processingStatus = "ready to pick" := by
  induction reqs generalizing existing with
  | nil =>
      intro o ho
      simp [bulkCreateOrders] at ho
  | cons r rest ih =>
      intro o ho
      unfold bulkCreateOrders at ho
      cases hc : existing.contains r.orderGineeID with
      | true =>
          rw [hc] at ho
          simp only [if_true] at ho
          exact ih existing o ho
      | false =>
          rw [hc] at ho
          simp only [Bool.false_eq_true, if_false] at ho
          rcases List.mem_cons.mp ho with heq | hmem
          · subst heq; rfl
          · exact ih _ o hmem

/-- Bulk-create request that asks for status "completed". -/
def sampleCreateReq : CreateOrderRequest :=
  { orderGineeID := "G-9", status := "completed", channel := "Shopee",
    store := "Store", buyer := "Buyer", address := "Addr", courier := "JNE",
    tracking := "TRK-9",
    orderDetails := [{ sku := "SKU-1", productName := "Prod", variant := "",
                       quantity := 1 }] }

/-- Witness for claim C10: the requested status "completed" is ignored. -/
theorem bulkCreate_ready_to_pick_witness :
    (orderFromCreateRequest sampleCreateReq).processingStatus = "ready to pick" :=
  bulkCreate_ready_to_pick [] [sampleCreateReq]
    (orderFromCreateRequest sampleCreateReq) (by decide)

end Livo
